import Mathlib

/-!
# Verification of the `true-markets/tools` FIX simulation client

A shallow embedding, in Lean 4, of the FIX trading-simulation client found in
`fix_simulation/client.py` (class `Application`) together with its driver
`fix_simulation/trade_simulation.py`.  Python strings become `String`, byte
strings become `List Nat` (each entry `< 256`), machine integers are `Nat`
with explicit `% 2^32` where 32-bit overflow matters, optional values and
fields become `Option`, and the mutable attributes of the `Application`
object become an explicit record `AppState` threaded through the operations.
FIX messages are modelled as ordered lists of `(tag, value)` pairs, matching
quickfix's `setField` calls.

The cryptographic password derivation (`generate_password`) is embedded
executably: SHA-256 (FIPS 180-4) over byte lists, HMAC (RFC 2104), standard
base64, and UTF-8 encoding, so that concrete passwords can be evaluated by
the kernel.
-/

namespace FixSim

/-! ## Bytes and 32-bit arithmetic -/

/-- Addition modulo `2^32`, the word arithmetic of SHA-256. -/
def add32 (a b : Nat) : Nat := (a + b) % 4294967296

/-- Right-rotation of a 32-bit word by `n` places. -/
def rotr32 (n x : Nat) : Nat := ((x >>> n) ||| (x <<< (32 - n))) % 4294967296

/-- SHA-256 `Ch` function: bitwise choice. `¬x` is xor with 32 one bits. -/
def shaCh (x y z : Nat) : Nat := (x &&& y) ^^^ ((x ^^^ 4294967295) &&& z)

/-- SHA-256 `Maj` function: bitwise majority. -/
def shaMaj (x y z : Nat) : Nat := (x &&& y) ^^^ (x &&& z) ^^^ (y &&& z)

/-- SHA-256 big Σ₀. -/
def bigSigma0 (x : Nat) : Nat := rotr32 2 x ^^^ rotr32 13 x ^^^ rotr32 22 x

/-- SHA-256 big Σ₁. -/
def bigSigma1 (x : Nat) : Nat := rotr32 6 x ^^^ rotr32 11 x ^^^ rotr32 25 x

/-- SHA-256 small σ₀. -/
def smallSigma0 (x : Nat) : Nat := rotr32 7 x ^^^ rotr32 18 x ^^^ (x >>> 3)

/-- SHA-256 small σ₁. -/
def smallSigma1 (x : Nat) : Nat := rotr32 17 x ^^^ rotr32 19 x ^^^ (x >>> 10)

/-- Big-endian 4-byte encoding of a 32-bit word. -/
def be32 (x : Nat) : List Nat :=
  [(x >>> 24) % 256, (x >>> 16) % 256, (x >>> 8) % 256, x % 256]

/-- Big-endian 8-byte encoding of a 64-bit length. -/
def be64 (x : Nat) : List Nat :=
  [(x >>> 56) % 256, (x >>> 48) % 256, (x >>> 40) % 256, (x >>> 32) % 256,
   (x >>> 24) % 256, (x >>> 16) % 256, (x >>> 8) % 256, x % 256]

/-- Group a byte list into successive 64-byte blocks, structurally
recursive on a fuel bound so that it reduces definitionally. -/
def chunks64Fuel : Nat → List Nat → List (List Nat)
  | 0, _ => []
  | _, [] => []
  | fuel + 1, x :: xs => (x :: xs).take 64 :: chunks64Fuel fuel ((x :: xs).drop 64)

/-- Group a byte list into successive 64-byte blocks. -/
def chunks64 (l : List Nat) : List (List Nat) := chunks64Fuel l.length l

/-- Pack bytes into big-endian 32-bit words, four bytes per word. -/
def words32 : List Nat → List Nat
  | a :: b :: c :: d :: rest =>
      ((((a <<< 8) ||| b) <<< 8 ||| c) <<< 8 ||| d) :: words32 rest
  | _ => []

/-- The 64 SHA-256 round constants (FIPS 180-4 §4.2.2). -/
def sha256K : List Nat :=
  [1116352408, 1899447441, 3049323471, 3921009573, 961987163,
   1508970993, 2453635748, 2870763221, 3624381080, 310598401,
   607225278, 1426881987, 1925078388, 2162078206, 2614888103,
   3248222580, 3835390401, 4022224774, 264347078, 604807628,
   770255983, 1249150122, 1555081692, 1996064986, 2554220882,
   2821834349, 2952996808, 3210313671, 3336571891, 3584528711,
   113926993, 338241895, 666307205, 773529912, 1294757372,
   1396182291, 1695183700, 1986661051, 2177026350, 2456956037,
   2730485921, 2820302411, 3259730800, 3345764771, 3516065817,
   3600352804, 4094571909, 275423344, 430227734, 506948616,
   659060556, 883997877, 958139571, 1322822218, 1537002063,
   1747873779, 1955562222, 2024104815, 2227730452, 2361852424,
   2428436474, 2756734187, 3204031479, 3329325298]

/-- The eight working words of the SHA-256 state. -/
structure Hash8 where
  a : Nat
  b : Nat
  c : Nat
  d : Nat
  e : Nat
  f : Nat
  g : Nat
  h : Nat

/-- SHA-256 initial hash value (FIPS 180-4 §5.3.3). -/
def sha256H0 : Hash8 :=
  ⟨1779033703, 3144134277, 1013904242, 2773480762,
   1359893119, 2600822924, 528734635, 1541459225⟩

/-- Extend a 16-word message schedule by `k` further words. -/
def extendSchedule : List Nat → Nat → List Nat
  | w, 0 => w
  | w, k + 1 =>
      let n := w.length
      let next := add32 (add32 (smallSigma1 (w.getD (n - 2) 0)) (w.getD (n - 7) 0))
                        (add32 (smallSigma0 (w.getD (n - 15) 0)) (w.getD (n - 16) 0))
      extendSchedule (w ++ [next]) k

/-- One SHA-256 round: consume a schedule word paired with its constant. -/
def roundStep (st : Hash8) (wk : Nat × Nat) : Hash8 :=
  let t1 := add32 st.h (add32 (bigSigma1 st.e) (add32 (shaCh st.e st.f st.g) (add32 wk.2 wk.1)))
  let t2 := add32 (bigSigma0 st.a) (shaMaj st.a st.b st.c)
  ⟨add32 t1 t2, st.a, st.b, st.c, add32 st.d t1, st.e, st.f, st.g⟩

/-- SHA-256 compression of one 64-byte block into the running state. -/
def sha256Compress (h0 : Hash8) (block : List Nat) : Hash8 :=
  let w := extendSchedule (words32 block) 48
  let st := (w.zip sha256K).foldl roundStep h0
  ⟨add32 h0.a st.a, add32 h0.b st.b, add32 h0.c st.c, add32 h0.d st.d,
   add32 h0.e st.e, add32 h0.f st.f, add32 h0.g st.g, add32 h0.h st.h⟩

/-- FIPS 180-4 padding: a `0x80` byte, zeros to 56 mod 64, then the
big-endian 64-bit bit length of the message. -/
def sha256Pad (msg : List Nat) : List Nat :=
  msg ++ 128 :: List.replicate ((119 - msg.length % 64) % 64) 0 ++ be64 (8 * msg.length)

/-- SHA-256 digest of a byte list, as a 32-byte list. -/
def sha256 (msg : List Nat) : List Nat :=
  let fin := (chunks64 (sha256Pad msg)).foldl sha256Compress sha256H0
  be32 fin.a ++ be32 fin.b ++ be32 fin.c ++ be32 fin.d ++
  be32 fin.e ++ be32 fin.f ++ be32 fin.g ++ be32 fin.h

/-- HMAC-SHA256 (RFC 2104): the embedding of Python `hmac.new(key, msg,
hashlib.sha256).digest()`.  A key longer than the 64-byte block is first
hashed, then zero-padded; inner pad `0x36`, outer pad `0x5c`. -/
def hmacSha256 (key msg : List Nat) : List Nat :=
  let k0 := if 64 < key.length then sha256 key else key
  let k1 := k0 ++ List.replicate (64 - k0.length) 0
  sha256 ((k1.map fun b => b ^^^ 0x5c) ++ sha256 ((k1.map fun b => b ^^^ 0x36) ++ msg))

/-! ## Base64 and UTF-8 -/

/-- The standard base64 alphabet. -/
def b64Alphabet : List Char :=
  "ABCDEFGHIJKLMNOPQRSTUVWXYZabcdefghijklmnopqrstuvwxyz0123456789+/".data

/-- The base64 character for a 6-bit value. -/
def b64Char (n : Nat) : Char := b64Alphabet.getD n '?'

/-- Encode successive 3-byte groups as 4 base64 characters, with `=`
padding for a trailing 1- or 2-byte group. -/
def b64Chunks : List Nat → List Char
  | a :: b :: c :: rest =>
      b64Char (a >>> 2) :: b64Char (((a &&& 3) <<< 4) ||| (b >>> 4)) ::
      b64Char (((b &&& 15) <<< 2) ||| (c >>> 6)) :: b64Char (c &&& 63) :: b64Chunks rest
  | [a, b] =>
      [b64Char (a >>> 2), b64Char (((a &&& 3) <<< 4) ||| (b >>> 4)),
       b64Char ((b &&& 15) <<< 2), '=']
  | [a] => [b64Char (a >>> 2), b64Char ((a &&& 3) <<< 4), '=', '=']
  | [] => []

/-- Python `base64.b64encode(..).decode('utf-8')`: base64 text of a byte list. -/
def base64Encode (bs : List Nat) : String := String.mk (b64Chunks bs)

/-- UTF-8 encoding of one scalar value (Lean `Char` excludes surrogates, so
this is total and never raises, unlike Python where only surrogates can make
`str.encode('utf-8')` fail). -/
def utf8Char (c : Char) : List Nat :=
  let n := c.toNat
  if n < 0x80 then [n]
  else if n < 0x800 then [0xC0 ||| (n >>> 6), 0x80 ||| (n &&& 0x3F)]
  else if n < 0x10000 then
    [0xE0 ||| (n >>> 12), 0x80 ||| ((n >>> 6) &&& 0x3F), 0x80 ||| (n &&& 0x3F)]
  else
    [0xF0 ||| (n >>> 18), 0x80 ||| ((n >>> 12) &&& 0x3F),
     0x80 ||| ((n >>> 6) &&& 0x3F), 0x80 ||| (n &&& 0x3F)]

/-- Python `s.encode('utf-8')` as a byte list. -/
def utf8Encode (s : String) : List Nat :=
  s.data.foldr (fun c acc => utf8Char c ++ acc) []

/-! ## The password derivation (`Application.generate_password`) -/

/-- Embedding of the static method `Application.generate_password`
(`client.py` lines 351-378), following the code line by line: the signed
message is the concatenation of the six non-secret arguments (`str(..)` on a
`str` is the identity), encoded UTF-8 (the `UnicodeEncodeError` fallback is
unreachable for Lean strings, see `utf8Char`); HMAC-SHA256 keyed by the
UTF-8 bytes of `secret`; the digest base64-encoded. -/
def generate_password (secret sendingTime msgType msgSeqNum senderCompID
    targetCompID username : String) : String :=
  let message := sendingTime ++ msgType ++ msgSeqNum ++ senderCompID ++
                 targetCompID ++ username
  let messageBytes := utf8Encode message
  let secretBytes := utf8Encode secret
  let mac := hmacSha256 secretBytes messageBytes
  base64Encode mac

/-- Modelled from the spec's words (§4.3 `derivePassword`): "Concatenates
the seven fields (as their literal string representations, in that fixed
order, with no separators) into a single message, computes a keyed hash
(HMAC-SHA256) over that message using `secret` as key, base64-encodes the
digest".  The argument tuple has seven fields beginning with `secret`, so
the spec's message includes the secret itself. -/
def derivePasswordSevenFields (secret sendingTime msgType msgSeqNum senderCompID
    targetCompID username : String) : String :=
  base64Encode (hmacSha256 (utf8Encode secret)
    (utf8Encode (secret ++ sendingTime ++ msgType ++ msgSeqNum ++ senderCompID ++
                 targetCompID ++ username)))

/-- Modelled from the spec's words amended to the code: the signed message
concatenates the six non-secret fields, in order, with no separators;
`secret` serves only as the HMAC key. -/
def derivePasswordSixFields (secret sendingTime msgType msgSeqNum senderCompID
    targetCompID username : String) : String :=
  base64Encode (hmacSha256 (utf8Encode secret)
    (utf8Encode (sendingTime ++ msgType ++ msgSeqNum ++ senderCompID ++
                 targetCompID ++ username)))

end FixSim

namespace FixSim

/-! ## FIX values, tags and messages

quickfix message objects are modelled as the ordered list of `(tag, value)`
pairs written by `setField`/`addGroup`; a repeating-group entry contributes
its member fields.  Field values keep their Python types: strings, numbers
(Python floats passed to `fix.Price`/`fix.OrderQty` are modelled as exact
rationals, since the client only passes them through), single characters
(FIX char enumerations) and integers. -/

/-- A FIX field value: string, numeric (price/quantity), char enumeration,
or integer field. -/
inductive FVal where
  | s (v : String)
  | q (v : ℚ)
  | c (v : Char)
  | n (v : Nat)
deriving DecidableEq, Repr

/-- A FIX message body: the ordered `(tag, value)` pairs set on it. -/
abbrev Msg : Type := List (Nat × FVal)

/-- The tags a message carries, in order. -/
def Msg.tags (m : Msg) : List Nat := m.map Prod.fst

/-- Whether a message carries a field with the given tag. -/
def Msg.hasTag (m : Msg) (t : Nat) : Bool := m.tags.contains t

/-! ## Enumeration tables (`client.py` lines 29-70) -/

/-- Table `SIDE_MAP`: quickfix `Side_BUY = '1'`, `Side_SELL = '2'`. -/
def SIDE_MAP : List (Char × String) := [('1', "BUY"), ('2', "SELL")]

/-- Table `ORDER_TYPE_MAP`: quickfix `OrdType_MARKET = '1'`, `OrdType_LIMIT = '2'`. -/
def ORDER_TYPE_MAP : List (Char × String) := [('1', "MARKET"), ('2', "LIMIT")]

/-- Table `EXEC_TYPE_MAP` (`client.py` lines 39-52), key order preserved. -/
def EXEC_TYPE_MAP : List (String × String) :=
  [("0", "New (Order Confirmation)"), ("1", "Partial Fill"), ("2", "Fill"),
   ("3", "Done for Day"), ("4", "Canceled"), ("5", "Replaced (Modified Order)"),
   ("6", "Pending Cancel"), ("8", "Rejected"), ("9", "Suspended"),
   ("A", "Pending New"), ("C", "Expired"), ("E", "Pending Replace")]

/-- Table `ORDER_STATUS_MAP` (`client.py` lines 54-70), key order preserved. -/
def ORDER_STATUS_MAP : List (String × String) :=
  [("0", "New"), ("1", "Partially Filled"), ("2", "Filled"), ("3", "Done for Day"),
   ("4", "Canceled"), ("5", "Replaced"), ("6", "Pending Cancel"), ("7", "Stopped"),
   ("8", "Rejected"), ("9", "Suspended"), ("A", "Pending New"), ("B", "Calculated"),
   ("C", "Expired"), ("D", "Accepted for Bidding"), ("E", "Pending Replace")]

/-- Python `dict.get(k, default)` over an association list. -/
def dictGet {α β : Type} [BEq α] (m : List (α × β)) (k : α) (d : β) : β :=
  (m.lookup k).getD d

/-- Lookup `EXEC_TYPE_MAP.get(v, ..)` with the Unknown default (`client.py` line 238). -/
def execTypeStr (v : String) : String :=
  dictGet EXEC_TYPE_MAP v ("Unknown (" ++ v ++ ")")

/-- Lookup `ORDER_STATUS_MAP.get(v, ..)` with the Unknown default (`client.py` line 239). -/
def ordStatusStr (v : String) : String :=
  dictGet ORDER_STATUS_MAP v ("Unknown (" ++ v ++ ")")

/-! ## Decimal rendering of Python integers

`str(n)` / f-string interpolation of a nonnegative Python `int` produces its
decimal digits; embedded as a structurally recursive (hence definitionally
reducing) converter. -/

/-- The decimal digit character for `d < 10`. -/
def digitChar : Nat → Char
  | 0 => '0' | 1 => '1' | 2 => '2' | 3 => '3' | 4 => '4'
  | 5 => '5' | 6 => '6' | 7 => '7' | 8 => '8' | 9 => '9'
  | _ => '*'

/-- Little-endian decimal digits of `n`, with fuel for structural recursion. -/
def natCharsAux : Nat → Nat → List Char
  | 0, _ => []
  | _, 0 => []
  | fuel + 1, n + 1 => digitChar ((n + 1) % 10) :: natCharsAux fuel ((n + 1) / 10)

/-- The decimal digit characters of `n`, most significant first; `"0"` for 0.
This is `str(n)` for a nonnegative Python int. -/
def natChars (n : Nat) : List Char :=
  if n = 0 then ['0'] else (natCharsAux n n).reverse

/-- Python `str(n)` as a Lean string. -/
def natStr (n : Nat) : String := String.mk (natChars n)

/-! ## The application state (`Application.__init__`, `client.py` 128-137)

The mutable attributes of the Python object.  Note that the source has two
distinct attributes with nearly identical names: `sessionId` (set to `None`
in `__init__` and again in `toAdmin` on Logon, never set to anything else)
and `sessionID` (set by `onLogon`). -/

/-- The mutable state of an `Application` object. -/
structure AppState where
  sessionId : Option String
  lastClOrdId : Option String
  orderIdCounter : Nat
  clientId : Option String
  sessionID : Option String
  mnemonic : String
  apiKeyId : String
  apiKeySecret : String
deriving DecidableEq, Repr

/-- Constructor `Application.__init__(api_key_id, api_key_secret, mnemonic)`. -/
def Application.init (apiKeyId apiKeySecret mnemonic : String) : AppState :=
  { sessionId := none, lastClOrdId := none, orderIdCounter := 0,
    clientId := none, sessionID := none,
    mnemonic := mnemonic, apiKeyId := apiKeyId, apiKeySecret := apiKeySecret }

/-- Python truthiness test `not x` for an optional string
(`if not self.lastClOrdId`): true for `None` and for the empty string. -/
def pyFalsy : Option String → Bool
  | none => true
  | some s => s == ""

/-- Python `str(x)` for an optional string: `str(None)` is `"None"`. -/
def pyStrOpt : Option String → String
  | none => "None"
  | some s => s

/-- The wall-clock and randomness inputs one `generate_order_id` call reads:
`int(time.time() * 1000)` and `uuid.uuid4().hex[:8]` (as its characters).
A real uuid4 hex fragment consists of hexadecimal digits only, so it never
contains the `'-'` separator; that fact is carried as a hypothesis
(`fragOk`) where needed. -/
structure GenEnv where
  ts : Nat
  frag : List Char
deriving DecidableEq, Repr

/-- The uuid fragment contains no separator character, as is true of every
value of `uuid.uuid4().hex[:8]`. -/
def fragOk (frag : List Char) : Prop := '-' ∉ frag

instance (frag : List Char) : Decidable (fragOk frag) :=
  inferInstanceAs (Decidable ('-' ∉ frag))

/-- Format of a generated id: timestamp, uuid fragment and counter joined by dashes. -/
def renderId (ts : Nat) (frag : List Char) (c : Nat) : String :=
  String.mk (natChars ts ++ '-' :: (frag ++ '-' :: natChars c))

/-- Method `Application.generate_order_id` (`client.py` 255-259): increments the
counter, then formats timestamp, uuid fragment and the incremented counter
separated by `'-'`.  Returns the id and the updated state. -/
def Application.generate_order_id (e : GenEnv) (s : AppState) : String × AppState :=
  let counter := s.orderIdCounter + 1
  (renderId e.ts e.frag counter, { s with orderIdCounter := counter })

end FixSim

namespace FixSim

/-! ## Order operations (`client.py` 262-349) -/

/-- The `INSTRUMENT` constant (`client.py` 22-27). -/
structure Instrument where
  symbol : String
  quote_increment : ℚ
  base_increment : ℚ
  reference_price : ℚ
deriving DecidableEq, Repr

/-- Constant `INSTRUMENT` with the `BTC-PYUSD` instrument details. -/
def INSTRUMENT : Instrument :=
  { symbol := "BTC-PYUSD", quote_increment := 1/2,
    base_increment := 1/10000, reference_price := 10000 }

/-- The party repeating group every order message carries (`client.py`
285-288, 317-320, 341-344): `PartyID` (tag 448) is `str(self.clientId)` —
literally `"None"` when the client id lookup found nothing — and
`PartyRole` (tag 452) is `PartyRole_CLIENT_ID = 3`. -/
def partyGroup (clientId : Option String) : Msg :=
  [(448, FVal.s (pyStrOpt clientId)), (452, FVal.n 3)]

/-- Method `Application.send_order` (`client.py` 304-328): always builds and sends
a NewOrderSingle — there is no check that `clientId` is present — with
fields in `setField` order: ClOrdID 11, Symbol 55, Side 54, TransactTime 60
(default-constructed, value abstracted as the empty string), OrdType 40,
Price 44, OrderQty 38, TimeInForce 59 (`GOOD_TILL_CANCEL = '1'`), then the
party group.  Records the new id as `lastClOrdId`.  Returns the updated
state and the messages sent. -/
def Application.send_order (e : GenEnv) (s : AppState) (side : Char)
    (price quantity : ℚ) (orderType : Char) : AppState × List Msg :=
  let (clOrdId, s1) := Application.generate_order_id e s
  let m : Msg :=
    [(11, FVal.s clOrdId), (55, FVal.s INSTRUMENT.symbol), (54, FVal.c side),
     (60, FVal.s ""), (40, FVal.c orderType), (44, FVal.q price),
     (38, FVal.q quantity), (59, FVal.c '1')] ++ partyGroup s.clientId
  ({ s1 with lastClOrdId := some clOrdId }, [m])

/-- The control-flow outcome of `Application.cancel_order`.  The Python
method returns `None` on both paths; the outcome records which path ran:
the early `return  # No order to cancel` (the spec's `NoActiveOrder`), or
the path that built and sent an OrderCancelRequest with a fresh id. -/
inductive CancelOutcome where
  | noActiveOrder
  | requested (clOrdId : String)
deriving DecidableEq, Repr

/-- Method `Application.cancel_order` (`client.py` 331-349): returns early when
`lastClOrdId` is falsy; otherwise sends an OrderCancelRequest with
OrigClOrdID 41 = the tracked id, ClOrdID 11 = a fresh id, the party group,
and updates `lastClOrdId` to the fresh id. -/
def Application.cancel_order (e : GenEnv) (s : AppState) :
    CancelOutcome × AppState × List Msg :=
  if pyFalsy s.lastClOrdId then (.noActiveOrder, s, [])
  else
    let (clOrdId, s1) := Application.generate_order_id e s
    let m : Msg :=
      [(41, FVal.s (pyStrOpt s.lastClOrdId)), (11, FVal.s clOrdId)] ++
      partyGroup s.clientId
    (.requested clOrdId, { s1 with lastClOrdId := some clOrdId }, [m])

/-- Method `Application.modify_order` (`client.py` 262-294): returns `None` (and
sends nothing) when `lastClOrdId` is falsy; otherwise sends an
OrderCancelReplaceRequest carrying OrigClOrdID 41, a fresh ClOrdID 11,
then Price 44 / OrderQty 38 / OrdType 40 each only if the corresponding
optional argument is not `None`, then the party group; updates
`lastClOrdId` to the fresh id and returns the message. -/
def Application.modify_order (e : GenEnv) (s : AppState)
    (newPrice newQuantity : Option ℚ) (newOrderType : Option Char) :
    Option Msg × AppState × List Msg :=
  if pyFalsy s.lastClOrdId then (none, s, [])
  else
    let (clOrdId, s1) := Application.generate_order_id e s
    let m0 : Msg := [(41, FVal.s (pyStrOpt s.lastClOrdId)), (11, FVal.s clOrdId)]
    let m1 := match newPrice with
      | some p => m0 ++ [(44, FVal.q p)]
      | none => m0
    let m2 := match newQuantity with
      | some q => m1 ++ [(38, FVal.q q)]
      | none => m1
    let m3 := match newOrderType with
      | some t => m2 ++ [(40, FVal.c t)]
      | none => m2
    let m := m3 ++ partyGroup s.clientId
    (some m, { s1 with lastClOrdId := some clOrdId }, [m])

/-! ## Session callbacks and logout (`client.py` 142-210, 296-301) -/

/-- Callback `Application.onLogon` (`client.py` 142-146): records the session id in
`sessionID` (capital `ID`) and stores the result of the external
`get_client_id` HTTP lookup — supplied here as the `lookupResult`
parameter, `none` when no mnemonic matched — in `clientId`.  The attribute
`sessionId` (lower-case `d`) is not touched. -/
def Application.onLogon (sessionIdArg : String) (lookupResult : Option String)
    (s : AppState) : AppState :=
  { s with sessionID := some sessionIdArg, clientId := lookupResult }

/-- The header fields `toAdmin` reads from an outgoing admin message. -/
structure AdminHeader where
  msgType : String
  msgSeqNum : String
  senderCompID : String
  targetCompID : String
deriving DecidableEq, Repr

/-- Callback `Application.toAdmin` (`client.py` 151-172): on a Logon message
(MsgType `"A"`) it sets `self.sessionId = None`, computes the signed
password from the header fields and the wall-clock sending time, and writes
SendingTime 52, Username 553 and Password 554 onto the message.  Other
admin messages pass through unchanged.  Returns the updated state and the
fields written. -/
def Application.toAdmin (sendingTime : String) (hdr : AdminHeader)
    (s : AppState) : AppState × Msg :=
  if hdr.msgType = "A" then
    let password := generate_password s.apiKeySecret sendingTime hdr.msgType
      hdr.msgSeqNum hdr.senderCompID hdr.targetCompID s.apiKeyId
    ({ s with sessionId := none },
     [(52, FVal.s sendingTime), (553, FVal.s s.apiKeyId), (554, FVal.s password)])
  else (s, [])

/-- Method `Application.send_logout` (`client.py` 296-301): only when
`self.sessionId is not None` does it build a Logout message (MsgType 35 =
`"5"`) and send it to `self.sessionID`.  Returns the messages sent. -/
def Application.send_logout (s : AppState) : List Msg :=
  match s.sessionId with
  | some _ => [[(35, FVal.s "5")]]
  | none => []

/-! ## Execution-report ingestion (`client.py` 194-252) -/

/-- A Python runtime value of one of the two types the replay guard
compares: `fix.PossDupFlag` is a quickfix `BoolField`, so its `getValue()`
returns a Python `bool`, while the guard's right-hand side is the string
`"Y"`. -/
inductive PyVal where
  | bool (b : Bool)
  | str (v : String)
deriving DecidableEq, Repr

/-- Python `==` over these values: operands of the same type compare their
contents; a `bool` and a `str` are never equal (Python defines no coercion
between them, so cross-type `==` is `False`). -/
def pyEq : PyVal → PyVal → Bool
  | .bool a, .bool b => a == b
  | .str a, .str b => a == b
  | _, _ => false

/-- An inbound execution-report message, by the fields the handler reads:
each is `some v` when set.  PossDupFlag (tag 43) is a standard-header
field, which quickfix parses into the header field map and — being FIX
type BOOLEAN — exposes through `BoolField` as a Python `bool`; a real
replayed report carries `headerPossDupFlag = some true`.  The code's
`message.isSetField(poss_dup_flag)` consults only the message *body* map,
so a body occurrence of tag 43 (absent on conforming messages) is modelled
separately as `bodyPossDupFlag`.  The remaining fields are body fields of
an ExecutionReport, where `isSetField`/`getField` on the message do read
them. -/
structure ExecMsg where
  headerPossDupFlag : Option Bool
  bodyPossDupFlag : Option Bool
  execType : Option String
  ordStatus : Option String
  clOrdID : Option String
  price : Option ℚ
  quantity : Option ℚ
  side : Option Char
  ordType : Option Char
deriving DecidableEq, Repr

/-- The report the handler (the structured log call, `client.py` 243-252)
receives: the raw optional fields plus the mapped enumeration names. -/
structure ExecReport where
  clientId : Option String
  clOrdID : Option String
  execTypeText : String
  ordStatusText : String
  price : Option ℚ
  quantity : Option ℚ
  sideText : Option String
  ordTypeText : Option String
deriving DecidableEq, Repr

/-- The outcome of `on_execution_report`: the PossDupFlag replay
short-circuit (the early `return` at `client.py` line 210), a quickfix
`FieldNotFound` raise from the unconditional `getField` on
ExecType/OrdStatus, or delivery to the handler. -/
inductive ExecResult where
  | discarded
  | fieldNotFound
  | delivered (r : ExecReport)
deriving DecidableEq, Repr

/-- The part of `on_execution_report` after the replay guard (`client.py`
212-252): ExecType and OrdStatus are read unconditionally (quickfix raises
`FieldNotFound` when absent), the remaining fields conditionally, and the
report — with enumeration codes mapped through the tables — is handed to
the handler. -/
def Application.execReportParse (s : AppState) (m : ExecMsg) : ExecResult :=
  match m.execType, m.ordStatus with
  | some et, some os =>
      .delivered
        { clientId := s.clientId, clOrdID := m.clOrdID,
          execTypeText := execTypeStr et, ordStatusText := ordStatusStr os,
          price := m.price, quantity := m.quantity,
          sideText := m.side.bind fun c => SIDE_MAP.lookup c,
          ordTypeText := m.ordType.bind fun c => ORDER_TYPE_MAP.lookup c }
  | _, _ => .fieldNotFound

/-- Handler `Application.on_execution_report` (`client.py` 204-252).  The
replay guard at lines 205-210 is embedded exactly as written: it tests
`message.isSetField(poss_dup_flag)` — the *body* field map, though
quickfix parses PossDupFlag into the header — and then compares
`poss_dup_flag.getValue()`, a Python `bool` (PossDupFlag is a
`BoolField`), with the string `"Y"` under Python `==`.  Only when both
succeed does it return before parsing; otherwise the message is parsed
and delivered (`execReportParse`).  The header's PossDupFlag is never
consulted. -/
def Application.on_execution_report (s : AppState) (m : ExecMsg) : ExecResult :=
  match m.bodyPossDupFlag with
  | some b =>
      if pyEq (PyVal.bool b) (PyVal.str "Y") then .discarded
      else Application.execReportParse s m
  | none => Application.execReportParse s m

/-- Callback `Application.fromApp` (`client.py` 194-202): routes messages with
MsgType `"8"` (ExecutionReport) to `on_execution_report`; every other
application message is only logged (`none`). -/
def Application.fromApp (s : AppState) (msgType : String) (m : ExecMsg) :
    Option ExecResult :=
  if msgType = "8" then some (Application.on_execution_report s m) else none

/-- The ids produced by a sequence of `generate_order_id` calls, threading
the state. -/
def genTrace (s : AppState) : List GenEnv → List String
  | [] => []
  | e :: es =>
      let (id, s1) := Application.generate_order_id e s
      id :: genTrace s1 es

end FixSim

namespace FixSim

/-! ## Properties of decimal rendering and generated order ids -/

/-- Decimal value of a digit character. -/
def charVal (c : Char) : Nat := c.toNat - 48

/-- Value of a little-endian digit-character list. -/
def decodeLE : List Char → Nat
  | [] => 0
  | c :: cs => charVal c + 10 * decodeLE cs

theorem charVal_digitChar {d : Nat} (h : d < 10) : charVal (digitChar d) = d := by
  interval_cases d <;> rfl

theorem digitChar_ne_dash {d : Nat} (h : d < 10) : digitChar d ≠ '-' := by
  interval_cases d <;> decide

theorem decode_natCharsAux : ∀ fuel n, n ≤ fuel → decodeLE (natCharsAux fuel n) = n := by
  intro fuel
  induction fuel with
  | zero => intro n hn; interval_cases n; rfl
  | succ fuel ih =>
      intro n hn
      match n with
      | 0 => rfl
      | m + 1 =>
          have hdiv : (m + 1) / 10 ≤ fuel := by
            have : (m + 1) / 10 < m + 1 := Nat.div_lt_self (Nat.succ_pos m) (by omega)
            omega
          have hmod : (m + 1) % 10 < 10 := Nat.mod_lt _ (by omega)
          simp only [natCharsAux, decodeLE, ih _ hdiv, charVal_digitChar hmod]
          exact Nat.mod_add_div (m + 1) 10

theorem decode_reverse_natChars (n : Nat) : decodeLE (natChars n).reverse = n := by
  by_cases h : n = 0
  · subst h; rfl
  · simp only [natChars, if_neg h, List.reverse_reverse]
    exact decode_natCharsAux n n le_rfl

theorem natChars_injective {m n : Nat} (h : natChars m = natChars n) : m = n := by
  have := congrArg (fun l => decodeLE l.reverse) h
  simpa only [decode_reverse_natChars] using this

theorem natCharsAux_no_dash : ∀ fuel n, '-' ∉ natCharsAux fuel n := by
  intro fuel
  induction fuel with
  | zero => intro n; simp [natCharsAux]
  | succ fuel ih =>
      intro n
      match n with
      | 0 => simp [natCharsAux]
      | m + 1 =>
          simp only [natCharsAux, List.mem_cons, not_or]
          exact ⟨fun hc => digitChar_ne_dash (Nat.mod_lt _ (by omega)) hc.symm,
                 ih ((m + 1) / 10)⟩

theorem natChars_no_dash (n : Nat) : '-' ∉ natChars n := by
  by_cases h : n = 0
  · subst h; decide
  · simp only [natChars, if_neg h, List.mem_reverse]
    exact natCharsAux_no_dash n n

theorem natChars_ne_nil (n : Nat) : natChars n ≠ [] := by
  by_cases h : n = 0
  · subst h; decide
  · simp only [natChars, if_neg h]
    intro hc
    have := decode_natCharsAux n n le_rfl
    rw [List.reverse_eq_nil_iff.mp hc] at this
    exact h this.symm

/-- Unique parsing around a separator: if two concatenations agree and
neither left part contains the separator, the parts agree. -/
theorem sep_split_unique {sep : Char} :
    ∀ (a c b d : List Char), sep ∉ a → sep ∉ c →
      a ++ sep :: b = c ++ sep :: d → a = c ∧ b = d := by
  intro a
  induction a with
  | nil =>
      intro c b d _ hc h
      match c with
      | [] => simpa using h
      | x :: cs =>
          simp only [List.nil_append, List.cons_append, List.cons.injEq] at h
          exact absurd (h.1 ▸ List.mem_cons_self x cs) hc
  | cons x as ih =>
      intro c b d ha hc h
      match c with
      | [] =>
          simp only [List.cons_append, List.nil_append, List.cons.injEq] at h
          exact absurd (h.1 ▸ List.mem_cons_self x as) ha
      | y :: cs =>
          simp only [List.cons_append, List.cons.injEq] at h
          obtain ⟨hxy, h2⟩ := h
          have ha2 : sep ∉ as := fun hm => ha (List.mem_cons_of_mem x hm)
          have hc2 : sep ∉ cs := fun hm => hc (List.mem_cons_of_mem y hm)
          obtain ⟨h3, h4⟩ := ih cs b d ha2 hc2 h2
          exact ⟨by rw [hxy, h3], h4⟩

theorem string_mk_inj {a b : List Char} (h : String.mk a = String.mk b) : a = b :=
  congrArg String.data h

/-- A generated order id determines its timestamp, fragment and counter:
the two `'-'` separators parse uniquely because decimal renderings and
uuid hex fragments never contain `'-'`. -/
theorem renderId_inj {t t' c c' : Nat} {f f' : List Char}
    (hf : fragOk f) (hf' : fragOk f')
    (h : renderId t f c = renderId t' f' c') : t = t' ∧ f = f' ∧ c = c' := by
  have hl := string_mk_inj h
  obtain ⟨h1, h2⟩ := sep_split_unique (natChars t) (natChars t') _ _
    (natChars_no_dash t) (natChars_no_dash t') hl
  obtain ⟨h3, h4⟩ := sep_split_unique f f' _ _ hf hf' h2
  exact ⟨natChars_injective h1, h3, natChars_injective h4⟩

theorem renderId_ne_empty (t : Nat) (f : List Char) (c : Nat) :
    renderId t f c ≠ "" := by
  intro h
  have hl := congrArg String.data h
  simp only [renderId, String.data] at hl
  rcases List.append_eq_nil.mp hl with ⟨_, h2⟩
  exact List.cons_ne_nil _ _ h2

theorem pyFalsy_renderId (t : Nat) (f : List Char) (c : Nat) :
    pyFalsy (some (renderId t f c)) = false := by
  simp only [pyFalsy, beq_eq_false_iff_ne, ne_eq]
  exact renderId_ne_empty t f c

/-- An id the session may track: produced by some earlier
`generate_order_id` call whose counter did not exceed `bound`. -/
def IsGenId (bound : Nat) (id : String) : Prop :=
  ∃ ts frag c, fragOk frag ∧ c ≤ bound ∧ id = renderId ts frag c

theorem isGenId_ne_fresh {bound : Nat} {id : String} (hg : IsGenId bound id)
    {t : Nat} {f : List Char} (hf : fragOk f) :
    renderId t f (bound + 1) ≠ id := by
  obtain ⟨ts, frag, c, hfrag, hc, rfl⟩ := hg
  intro h
  have := (renderId_inj hf hfrag h).2.2
  omega

end FixSim

namespace FixSim

/-! ## Association-list lookup lemmas (for the enumeration tables) -/

theorem lookup_mem {α β : Type} [BEq α] [LawfulBEq α] :
    ∀ {l : List (α × β)} {k : α} {v : β}, l.lookup k = some v → (k, v) ∈ l := by
  intro l
  induction l with
  | nil => intro k v h; simp [List.lookup] at h
  | cons p t ih =>
      intro k v h
      obtain ⟨a, b⟩ := p
      rw [List.lookup] at h
      rcases hb : (k == a) with _ | _
      · rw [hb] at h
        exact List.mem_cons_of_mem _ (ih h)
      · rw [hb] at h
        simp only [Option.some.injEq] at h
        exact (eq_of_beq hb) ▸ h ▸ List.mem_cons_self _ _

theorem lookup_of_mem {α β : Type} [BEq α] [LawfulBEq α] :
    ∀ {l : List (α × β)}, (l.map Prod.fst).Nodup →
      ∀ {k : α} {v : β}, (k, v) ∈ l → l.lookup k = some v := by
  intro l
  induction l with
  | nil => intro _ k v h; simp at h
  | cons p t ih =>
      intro hnd k v h
      obtain ⟨a, b⟩ := p
      simp only [List.map_cons, List.nodup_cons] at hnd
      rcases List.mem_cons.mp h with heq | hmem
      · obtain ⟨rfl, rfl⟩ := Prod.mk.injEq _ _ _ _ ▸ heq
        simp [List.lookup]
      · have hka : (k == a) = false := by
          rcases hb : (k == a) with _ | _
          · rfl
          · exact absurd ((eq_of_beq hb) ▸ List.mem_map_of_mem Prod.fst hmem) hnd.1
        rw [List.lookup, hka]
        exact ih hnd.2 hmem

/-! ## Claim theorems -/

set_option maxRecDepth 1000000 in
/-- Claim C1, counterexample: the claim states that the signed message is
the concatenation of all seven input fields, `secret` included.  At the
concrete input `secret = "k"` and all other fields empty, the password the
code computes (message = empty concatenation of the six non-secret fields)
differs from the password obtained by hashing the seven-field
concatenation (message = `"k"`). -/
theorem claim_C1_counterexample :
    generate_password "k" "" "" "" "" "" "" ≠
      derivePasswordSevenFields "k" "" "" "" "" "" "" := by decide

/-- Claim C1, amended: for every input tuple, `generate_password` returns
the base64 encoding of the HMAC-SHA256 digest, keyed by `secret`, of the
single message formed by concatenating the SIX non-secret fields
(sendingTime, msgType, msgSeqNum, senderCompID, targetCompID, username) as
their literal string representations, in that fixed order, with no
separators; the secret is used only as the HMAC key. -/
theorem claim_C1 :
    ∀ secret sendingTime msgType msgSeqNum senderCompID targetCompID username,
      generate_password secret sendingTime msgType msgSeqNum senderCompID
          targetCompID username =
        derivePasswordSixFields secret sendingTime msgType msgSeqNum senderCompID
          targetCompID username :=
  fun _ _ _ _ _ _ _ => rfl

/-- Claim C2 (code bug): the replay guard is dead code and a
possible-duplicate execution report IS delivered to the handler.  For
every state and every message whose body carries ExecType and OrdStatus —
with the header PossDupFlag arbitrary, in particular `some true` (a real
replay), and even an ill-placed body copy of tag 43 arbitrary —
`on_execution_report` parses the message and hands the report to the
handler, and the `fromApp` MsgType-8 route does the same: the guard tests
`message.isSetField(poss_dup_flag)` on the body while quickfix parses
PossDupFlag into the header, and its comparison `getValue() == "Y"` puts a
Python `bool` against a string, which is always false.  This contradicts
the claim that such a report is never delivered. -/
theorem claim_C2 (s : AppState) (m : ExecMsg) (et os : String)
    (het : m.execType = some et) (hos : m.ordStatus = some os) :
    Application.on_execution_report s m =
      ExecResult.delivered
        { clientId := s.clientId, clOrdID := m.clOrdID,
          execTypeText := execTypeStr et, ordStatusText := ordStatusStr os,
          price := m.price, quantity := m.quantity,
          sideText := m.side.bind fun c => SIDE_MAP.lookup c,
          ordTypeText := m.ordType.bind fun c => ORDER_TYPE_MAP.lookup c } ∧
    Application.fromApp s "8" m =
      some (ExecResult.delivered
        { clientId := s.clientId, clOrdID := m.clOrdID,
          execTypeText := execTypeStr et, ordStatusText := ordStatusStr os,
          price := m.price, quantity := m.quantity,
          sideText := m.side.bind fun c => SIDE_MAP.lookup c,
          ordTypeText := m.ordType.bind fun c => ORDER_TYPE_MAP.lookup c }) := by
  rcases hb : m.bodyPossDupFlag with _ | b <;>
    simp [Application.on_execution_report, Application.fromApp,
          Application.execReportParse, pyEq, hb, het, hos]

/-- Claim C2 witness: a concrete well-formed replayed report — header
PossDupFlag true, and even a body copy of tag 43 set to true — is parsed
and delivered in full, not discarded. -/
theorem claim_C2_witness :
    Application.on_execution_report (Application.init "k" "s" "m")
        ⟨some true, some true, some "0", some "0", some "CID-1",
         some 10000, some (1/4), some '1', some '2'⟩ =
      ExecResult.delivered
        ⟨none, some "CID-1", "New (Order Confirmation)", "New",
         some 10000, some (1/4), some "BUY", some "LIMIT"⟩ ∧
    Application.fromApp (Application.init "k" "s" "m") "8"
        ⟨some true, some true, some "0", some "0", some "CID-1",
         some 10000, some (1/4), some '1', some '2'⟩ =
      some (ExecResult.delivered
        ⟨none, some "CID-1", "New (Order Confirmation)", "New",
         some 10000, some (1/4), some "BUY", some "LIMIT"⟩) :=
  claim_C2 (Application.init "k" "s" "m")
    ⟨some true, some true, some "0", some "0", some "CID-1",
     some 10000, some (1/4), some '1', some '2'⟩ "0" "0" rfl rfl

end FixSim

namespace FixSim

/-- Claim C3: when no order is tracked (`lastClOrdId` is Python-falsy, in
particular `None`), `cancel_order` takes its explicit failure path
(`NoActiveOrder`, the early `return`) and `modify_order` returns `None`;
neither sends any message, and the session state is returned unchanged. -/
theorem claim_C3 (e : GenEnv) (s : AppState) (p q : Option ℚ) (t : Option Char)
    (h : pyFalsy s.lastClOrdId = true) :
    Application.cancel_order e s = (CancelOutcome.noActiveOrder, s, []) ∧
    Application.modify_order e s p q t = (none, s, []) := by
  constructor
  · simp [Application.cancel_order, h]
  · simp [Application.modify_order, h]

/-- Claim C3 witness: on a freshly initialised application (no order ever
placed), cancel and modify fail with no message and unchanged state. -/
theorem claim_C3_witness :
    Application.cancel_order ⟨1, ['a']⟩ (Application.init "k" "s" "m") =
      (CancelOutcome.noActiveOrder, Application.init "k" "s" "m", []) ∧
    Application.modify_order ⟨1, ['a']⟩ (Application.init "k" "s" "m")
        (some 10000) none none =
      (none, Application.init "k" "s" "m", []) :=
  claim_C3 ⟨1, ['a']⟩ (Application.init "k" "s" "m") (some 10000) none none rfl

/-- Claim C5 (code bug): for every credential set and every logon
interaction — `toAdmin` stamping the outgoing Logon, then `onLogon`
recording the established session in `sessionID` — `send_logout` sends
nothing at all: it tests the attribute `sessionId` (lower-case `d`), which
is set to `None` in `__init__` and in `toAdmin` and is never assigned any
other value, so the guard is always false and no Logout (MsgType "5")
message is ever produced, contradicting the claimed behaviour. -/
theorem claim_C5 (key sec mn st sid : String) (hdr : AdminHeader)
    (cid : Option String) :
    (Application.onLogon sid cid
        (Application.toAdmin st hdr (Application.init key sec mn)).1).sessionID
        = some sid ∧
    Application.send_logout
        (Application.onLogon sid cid
          (Application.toAdmin st hdr (Application.init key sec mn)).1) = [] := by
  by_cases h : hdr.msgType = "A" <;>
    simp [Application.toAdmin, h, Application.onLogon, Application.init,
          Application.send_logout]

/-- Claim C4 (code bug): with the client-identifier lookup having returned
nothing (`clientId = None`, the situation of the `TODO handle case client
id is not found` comment at `client.py` line 145), `send_order` does not
fail: it sends a NewOrderSingle whose party group carries the placeholder
identifier `str(None) = "None"`; and with an order tracked, `cancel_order`
and `modify_order` likewise send messages carrying PartyID `"None"`.
Stated as a concrete evaluation: the exact messages sent from the
post-logon state with a missing client id. -/
theorem claim_C4 :
    (Application.send_order ⟨1735689600000, ['a', 'b']⟩
        (Application.onLogon "S1" none (Application.init "key" "sec" "MNEM"))
        '1' 10000 (1/4) '2').2 =
      [[(11, FVal.s (renderId 1735689600000 ['a', 'b'] 1)),
        (55, FVal.s "BTC-PYUSD"), (54, FVal.c '1'), (60, FVal.s ""),
        (40, FVal.c '2'), (44, FVal.q 10000), (38, FVal.q (1/4)),
        (59, FVal.c '1'), (448, FVal.s "None"), (452, FVal.n 3)]] ∧
    (Application.cancel_order ⟨1735689600001, ['c', 'd']⟩
        (Application.send_order ⟨1735689600000, ['a', 'b']⟩
          (Application.onLogon "S1" none (Application.init "key" "sec" "MNEM"))
          '1' 10000 (1/4) '2').1).2.2 =
      [[(41, FVal.s (renderId 1735689600000 ['a', 'b'] 1)),
        (11, FVal.s (renderId 1735689600001 ['c', 'd'] 2)),
        (448, FVal.s "None"), (452, FVal.n 3)]] ∧
    (Application.modify_order ⟨1735689600001, ['c', 'd']⟩
        (Application.send_order ⟨1735689600000, ['a', 'b']⟩
          (Application.onLogon "S1" none (Application.init "key" "sec" "MNEM"))
          '1' 10000 (1/4) '2').1 (some 10001) none none).2.2 =
      [[(41, FVal.s (renderId 1735689600000 ['a', 'b'] 1)),
        (11, FVal.s (renderId 1735689600001 ['c', 'd'] 2)),
        (44, FVal.q 10001), (448, FVal.s "None"), (452, FVal.n 3)]] := by
  refine ⟨rfl, ?_, ?_⟩ <;> rfl

end FixSim

namespace FixSim

/-- Claim C6: with a tracked active order (an id produced by an earlier
`generate_order_id` call, so of the rendered `ts-frag-counter` shape with a
counter not exceeding the session counter), `cancel_order` builds an
OrderCancelRequest whose OrigClOrdID (41) is the tracked id and whose
ClOrdID (11) is the freshly generated id, `modify_order` builds its
Cancel/Replace with the same two fields, the fresh id differs from the
tracked one (the strictly incremented counter component forces it), and
both operations leave the fresh id as the tracked active id. -/
theorem claim_C6 (e : GenEnv) (s : AppState) (prev : String)
    (hprev : s.lastClOrdId = some prev)
    (ts0 : Nat) (f0 : List Char) (c0 : Nat)
    (hgen : prev = renderId ts0 f0 c0) (hf0 : fragOk f0)
    (hc0 : c0 ≤ s.orderIdCounter) (hf : fragOk e.frag) :
    Application.cancel_order e s =
      (CancelOutcome.requested (renderId e.ts e.frag (s.orderIdCounter + 1)),
       { s with orderIdCounter := s.orderIdCounter + 1,
                lastClOrdId := some (renderId e.ts e.frag (s.orderIdCounter + 1)) },
       [[(41, FVal.s prev), (11, FVal.s (renderId e.ts e.frag (s.orderIdCounter + 1)))] ++
          partyGroup s.clientId]) ∧
    (∀ p q t, ∃ m : Msg,
       (Application.modify_order e s p q t).1 = some m ∧
       (41, FVal.s prev) ∈ m ∧
       (11, FVal.s (renderId e.ts e.frag (s.orderIdCounter + 1))) ∈ m ∧
       ((Application.modify_order e s p q t).2.1).lastClOrdId =
         some (renderId e.ts e.frag (s.orderIdCounter + 1))) ∧
    renderId e.ts e.frag (s.orderIdCounter + 1) ≠ prev := by
  have hfalse : pyFalsy (some prev) = false := by
    rw [hgen]; exact pyFalsy_renderId ts0 f0 c0
  have hnew : renderId e.ts e.frag (s.orderIdCounter + 1) ≠ prev :=
    isGenId_ne_fresh ⟨ts0, f0, c0, hf0, hc0, hgen⟩ hf
  refine ⟨?_, ?_, hnew⟩
  · simp [Application.cancel_order, hfalse, Application.generate_order_id, hprev,
          pyStrOpt]
  · intro p q t
    rcases p with _ | p <;> rcases q with _ | q <;> rcases t with _ | t <;>
      simp only [Application.modify_order, hprev, hfalse, Application.generate_order_id,
        pyStrOpt, Bool.false_eq_true, if_false, List.cons_append, List.nil_append] <;>
      exact ⟨_, rfl, by simp, by simp, by simp⟩

end FixSim

namespace FixSim

/-- Claim C6 witness: from a state tracking the order id `1-a-1` with
counter 1, a cancel at timestamp 2 with fragment `b` sends OrigClOrdID
`1-a-1`, fresh ClOrdID `2-b-2`, and tracks `2-b-2`; the two ids differ. -/
theorem claim_C6_witness :
    Application.cancel_order ⟨2, ['b']⟩
        ⟨none, some (renderId 1 ['a'] 1), 1, some "7", some "S", "m", "k", "x"⟩ =
      (CancelOutcome.requested (renderId 2 ['b'] 2),
       ⟨none, some (renderId 2 ['b'] 2), 2, some "7", some "S", "m", "k", "x"⟩,
       [[(41, FVal.s (renderId 1 ['a'] 1)), (11, FVal.s (renderId 2 ['b'] 2))] ++
          partyGroup (some "7")]) ∧
    renderId 2 ['b'] 2 ≠ renderId 1 ['a'] 1 :=
  ⟨(claim_C6 ⟨2, ['b']⟩ _ _ rfl 1 ['a'] 1 rfl (by decide) (by decide) (by decide)).1,
   (claim_C6 ⟨2, ['b']⟩
      ⟨none, some (renderId 1 ['a'] 1), 1, some "7", some "S", "m", "k", "x"⟩
      _ rfl 1 ['a'] 1 rfl (by decide) (by decide) (by decide)).2.2⟩

/-- Claim C7: with an active order tracked, `modify_order` produces exactly
one message; Price (44) appears in it iff `newPrice` was provided, OrderQty
(38) iff `newQuantity`, OrdType (40) iff `newOrderType`, each provided
value is carried verbatim, and no tags besides OrigClOrdID 41, ClOrdID 11,
the three optional fields and the party group (448, 452) are set. -/
theorem claim_C7 (e : GenEnv) (s : AppState) (p q : Option ℚ) (t : Option Char)
    (prev : String) (hprev : s.lastClOrdId = some prev) (hne : prev ≠ "") :
    ∃ m : Msg,
      Application.modify_order e s p q t =
        (some m,
         { s with orderIdCounter := s.orderIdCounter + 1,
                  lastClOrdId := some (renderId e.ts e.frag (s.orderIdCounter + 1)) },
         [m]) ∧
      Msg.hasTag m 44 = p.isSome ∧
      Msg.hasTag m 38 = q.isSome ∧
      Msg.hasTag m 40 = t.isSome ∧
      (∀ x, p = some x → (44, FVal.q x) ∈ m) ∧
      (∀ x, q = some x → (38, FVal.q x) ∈ m) ∧
      (∀ x, t = some x → (40, FVal.c x) ∈ m) ∧
      (∀ tg, tg ∈ Msg.tags m → tg ∈ ([41, 11, 44, 38, 40, 448, 452] : List Nat)) := by
  have hfalse : pyFalsy (some prev) = false := by simp [pyFalsy, hne]
  rcases p with _ | p <;> rcases q with _ | q <;> rcases t with _ | t <;>
    simp only [Application.modify_order, hprev, hfalse, Application.generate_order_id,
      pyStrOpt, Bool.false_eq_true, if_false, List.cons_append, List.nil_append] <;>
    exact ⟨_, rfl, by simp [Msg.hasTag, Msg.tags, partyGroup],
      by simp [Msg.hasTag, Msg.tags, partyGroup],
      by simp [Msg.hasTag, Msg.tags, partyGroup],
      by simp, by simp, by simp,
      by intro tg htg; simp [Msg.tags, partyGroup] at htg ⊢; omega⟩

/-- Claim C7 witness: modifying with only a new price from a state with a
tracked order includes Price and omits OrderQty and OrdType. -/
theorem claim_C7_witness :
    ∃ m : Msg,
      Application.modify_order ⟨2, ['b']⟩
          ⟨none, some (renderId 1 ['a'] 1), 1, some "7", some "S", "m", "k", "x"⟩
          (some 10050) none none =
        (some m,
         ⟨none, some (renderId 2 ['b'] 2), 2, some "7", some "S", "m", "k", "x"⟩,
         [m]) ∧
      Msg.hasTag m 44 = true ∧ Msg.hasTag m 38 = false ∧ Msg.hasTag m 40 = false ∧
      (∀ x, (some (10050 : ℚ)) = some x → (44, FVal.q x) ∈ m) ∧
      (∀ x, (none : Option ℚ) = some x → (38, FVal.q x) ∈ m) ∧
      (∀ x, (none : Option Char) = some x → (40, FVal.c x) ∈ m) ∧
      (∀ tg, tg ∈ Msg.tags m → tg ∈ ([41, 11, 44, 38, 40, 448, 452] : List Nat)) :=
  claim_C7 ⟨2, ['b']⟩
    ⟨none, some (renderId 1 ['a'] 1), 1, some "7", some "S", "m", "k", "x"⟩
    (some 10050) none none _ rfl (by decide)

/-- Every id in a generation trace comes from one of the environments and
carries a counter strictly above the starting counter. -/
theorem genTrace_mem : ∀ (es : List GenEnv) (s : AppState) (id : String),
    id ∈ genTrace s es →
    ∃ e c, e ∈ es ∧ s.orderIdCounter < c ∧ id = renderId e.ts e.frag c := by
  intro es
  induction es with
  | nil => intro s id h; simp [genTrace] at h
  | cons e es ih =>
      intro s id h
      simp only [genTrace, Application.generate_order_id, List.mem_cons] at h
      rcases h with rfl | h
      · exact ⟨e, s.orderIdCounter + 1, List.mem_cons_self e es, Nat.lt_succ_self _, rfl⟩
      · obtain ⟨e', c, he', hc, rfl⟩ := ih _ _ h
        exact ⟨e', c, List.mem_cons_of_mem e he',
               Nat.lt_of_succ_lt (by simpa using hc), rfl⟩

/-- Claim C8: the ids returned by any sequence of `generate_order_id`
calls — with arbitrary, possibly identical, timestamps and uuid fragments —
are pairwise distinct: the strictly incrementing counter component forces
every pair apart. -/
theorem claim_C8 (s : AppState) (es : List GenEnv)
    (hfr : ∀ e ∈ es, fragOk e.frag) :
    (genTrace s es).Pairwise (· ≠ ·) := by
  induction es generalizing s with
  | nil => simp [genTrace]
  | cons e es ih =>
      simp only [genTrace, Application.generate_order_id]
      rw [List.pairwise_cons]
      constructor
      · intro a ha hEq
        obtain ⟨e', c, he', hc, rfl⟩ := genTrace_mem es _ a ha
        have hcc := (renderId_inj (hfr e (List.mem_cons_self e es))
          (hfr e' (List.mem_cons_of_mem e he')) hEq).2.2
        simp at hc
        omega
      · exact ih _ fun e' he' => hfr e' (List.mem_cons_of_mem e he')

/-- Claim C8 witness: two generation calls that observe the same
millisecond timestamp and the same uuid fragment still produce distinct
identifiers. -/
theorem claim_C8_witness :
    (genTrace (Application.init "k" "x" "m") [⟨5, ['a']⟩, ⟨5, ['a']⟩]).Pairwise (· ≠ ·) :=
  claim_C8 (Application.init "k" "x" "m") [⟨5, ['a']⟩, ⟨5, ['a']⟩] (by decide)

/-- Claim C9: the ExecType and OrdStatus mappings are total functions on
raw codes and never fail: a code present in the fixed table maps to its
named value (the tables' keys are duplicate-free), and a code not present
maps to `"Unknown (<raw code>)"`. -/
theorem claim_C9 (v : String) :
    ((∀ name, (v, name) ∈ EXEC_TYPE_MAP → execTypeStr v = name) ∧
     ((∀ name, (v, name) ∉ EXEC_TYPE_MAP) →
        execTypeStr v = "Unknown (" ++ v ++ ")")) ∧
    ((∀ name, (v, name) ∈ ORDER_STATUS_MAP → ordStatusStr v = name) ∧
     ((∀ name, (v, name) ∉ ORDER_STATUS_MAP) →
        ordStatusStr v = "Unknown (" ++ v ++ ")")) := by
  refine ⟨⟨?_, ?_⟩, ?_, ?_⟩
  · intro name h
    unfold execTypeStr dictGet
    rw [lookup_of_mem (by decide) h]
    rfl
  · intro h
    unfold execTypeStr dictGet
    cases hl : EXEC_TYPE_MAP.lookup v with
    | none => rfl
    | some name => exact absurd (lookup_mem hl) (h name)
  · intro name h
    unfold ordStatusStr dictGet
    rw [lookup_of_mem (by decide) h]
    rfl
  · intro h
    unfold ordStatusStr dictGet
    cases hl : ORDER_STATUS_MAP.lookup v with
    | none => rfl
    | some name => exact absurd (lookup_mem hl) (h name)

/-- Claim C9 witness: a known code maps to its table entry, and a code
outside the table maps to the Unknown rendering. -/
theorem claim_C9_witness :
    execTypeStr "0" = "New (Order Confirmation)" ∧
    ordStatusStr "Z" = "Unknown (" ++ "Z" ++ ")" :=
  ⟨(claim_C9 "0").1.1 _ (by decide),
   (claim_C9 "Z").2.2 (by intro name h; simp [ORDER_STATUS_MAP] at h)⟩

/-- Claim C10 (implicit invariant): each of the three order operations
leaves a non-null tracked id — `send_order` unconditionally records the
fresh id, and `cancel_order`/`modify_order`, given a tracked order, record
the fresh id rather than clearing it — and a cancel issued after a prior
cancel references the prior cancel request's own client order id (not an
original order) as its OrigClOrdID. -/
theorem claim_C10 :
    (∀ e s side pr q t,
       ((Application.send_order e s side pr q t).1).lastClOrdId =
         some (renderId e.ts e.frag (s.orderIdCounter + 1))) ∧
    (∀ e s prev, s.lastClOrdId = some prev → prev ≠ "" →
       ((Application.cancel_order e s).2.1).lastClOrdId =
         some (renderId e.ts e.frag (s.orderIdCounter + 1))) ∧
    (∀ e s pr q t prev, s.lastClOrdId = some prev → prev ≠ "" →
       ((Application.modify_order e s pr q t).2.1).lastClOrdId =
         some (renderId e.ts e.frag (s.orderIdCounter + 1))) ∧
    (∀ e1 e2 s prev, s.lastClOrdId = some prev → prev ≠ "" →
       (Application.cancel_order e2 ((Application.cancel_order e1 s).2.1)).2.2 =
         [[(41, FVal.s (renderId e1.ts e1.frag (s.orderIdCounter + 1))),
           (11, FVal.s (renderId e2.ts e2.frag (s.orderIdCounter + 1 + 1)))] ++
            partyGroup s.clientId]) := by
  refine ⟨?_, ?_, ?_, ?_⟩
  · intro e s side pr q t
    simp [Application.send_order, Application.generate_order_id]
  · intro e s prev hprev hne
    have hfalse : pyFalsy (some prev) = false := by simp [pyFalsy, hne]
    simp [Application.cancel_order, hprev, hfalse, Application.generate_order_id]
  · intro e s pr q t prev hprev hne
    have hfalse : pyFalsy (some prev) = false := by simp [pyFalsy, hne]
    rcases pr with _ | pr <;> rcases q with _ | q <;> rcases t with _ | t <;>
      simp [Application.modify_order, hprev, hfalse, Application.generate_order_id]
  · intro e1 e2 s prev hprev hne
    have hfalse : pyFalsy (some prev) = false := by simp [pyFalsy, hne]
    have hfalse2 :
        pyFalsy (some (renderId e1.ts e1.frag (s.orderIdCounter + 1))) = false :=
      pyFalsy_renderId _ _ _
    simp [Application.cancel_order, hprev, hfalse, hfalse2,
          Application.generate_order_id, pyStrOpt]

/-- Claim C10 witness: concrete instances — a fresh send tracks an id; a
cancel from a tracked state tracks the new id; a modify does too; and a
second cancel references the first cancel's id. -/
theorem claim_C10_witness :
    ((Application.send_order ⟨1, ['a']⟩ (Application.init "k" "x" "m")
        '1' 10000 (1/4) '2').1).lastClOrdId = some (renderId 1 ['a'] 1) ∧
    ((Application.cancel_order ⟨2, ['b']⟩
        ⟨none, some (renderId 1 ['a'] 1), 1, some "7", some "S", "m", "k", "x"⟩).2.1).lastClOrdId =
      some (renderId 2 ['b'] 2) ∧
    ((Application.modify_order ⟨2, ['b']⟩
        ⟨none, some (renderId 1 ['a'] 1), 1, some "7", some "S", "m", "k", "x"⟩
        none (some (1/2)) none).2.1).lastClOrdId = some (renderId 2 ['b'] 2) ∧
    (Application.cancel_order ⟨3, ['c']⟩
        ((Application.cancel_order ⟨2, ['b']⟩
          ⟨none, some (renderId 1 ['a'] 1), 1, some "7", some "S", "m", "k", "x"⟩).2.1)).2.2 =
      [[(41, FVal.s (renderId 2 ['b'] 2)), (11, FVal.s (renderId 3 ['c'] 3))] ++
         partyGroup (some "7")] :=
  ⟨claim_C10.1 ⟨1, ['a']⟩ (Application.init "k" "x" "m") '1' 10000 (1/4) '2',
   claim_C10.2.1 ⟨2, ['b']⟩ _ _ rfl (by decide),
   claim_C10.2.2.1 ⟨2, ['b']⟩ _ none (some (1/2)) none _ rfl (by decide),
   claim_C10.2.2.2 ⟨2, ['b']⟩ ⟨3, ['c']⟩ _ _ rfl (by decide)⟩

end FixSim
